import Mathlib

/-!
Verification development for the PowerFactory network-analysis engine.

This file gives a shallow embedding, in Lean 4, of the contingency/scenario
orchestration and violation-classification core of the repository:

* `src/models/network_element.py`, `src/models/analysis_result.py`,
  `src/models/violation.py` — the data model;
* `src/analyzers/base_analyzer.py`, `src/analyzers/thermal_analyzer.py`,
  `src/analyzers/voltage_analyzer.py` — limit classification;
* `src/core/results_manager.py` — severity and contingency ranking;
* `src/core/scenario_manager.py` — scenario snapshot and restore;
* `src/core/contingency_manager.py` — the N-1 contingency state machine.

Numeric measurement values and limits are embedded as rationals; Python
dictionaries become insertion-ordered association lists (or functions where
only point lookup matters); methods that mutate `self` become functions from
an explicit state to a result paired with the updated state.  External
PowerFactory behaviour (attribute writes succeeding or raising, load-flow
outcomes, analysis callbacks raising) is a parameter of every stateful
operation, captured in an environment record.
-/

namespace PFNet

/-! ## Data model: `src/models/network_element.py` -/

/-- Model of `ElementType` enum (`network_element.py:10`). -/
inductive ElementType where
  | line
  | transformer2W
  | transformer3W
  | busbar
  | coupler
  | load
  | generator
deriving DecidableEq, Repr

/-- Model of `NetworkElement.is_thermal_element` (`network_element.py:54`):
lines, 2/3-winding transformers and couplers. -/
def ElementType.isThermalElement : ElementType → Bool
  | .line => true
  | .transformer2W => true
  | .transformer3W => true
  | .coupler => true
  | _ => false

/-- Model of `NetworkElement.is_voltage_element` (`network_element.py:65`): busbars. -/
def ElementType.isVoltageElement : ElementType → Bool
  | .busbar => true
  | _ => false

/-- The immutable identity of a `NetworkElement` (`network_element.py:27`).
The mutable `operational_status` field lives in the explicit machine state
(`CMState.elemStatus`), keyed by the element's name; names are unique within
a run. -/
structure NetworkElement where
  name : String
  elementType : ElementType
deriving DecidableEq, Repr

/-! ## Data model: `src/models/analysis_result.py` -/

/-- Model of `AnalysisType` enum (`analysis_result.py:13`). -/
inductive AnalysisType where
  | thermal
  | voltage
  | baseCase
  | contingency
deriving DecidableEq, Repr

/-- Model of `ResultStatus` enum (`analysis_result.py:21`). -/
inductive ResultStatus where
  | normal
  | warning
  | violation
  | error
deriving DecidableEq, Repr

namespace AnalysisResult

/-- Model of `AnalysisResult.deviation_percent` (`analysis_result.py:68`): guarded
percentage deviation from the limit. -/
def deviationPercent (value limit : ℚ) : ℚ :=
  if limit = 0 then 0 else (value - limit) / limit * 100

end AnalysisResult

namespace Violation

/-- Model of `Violation.deviation_percent` (`violation.py:123`): same guarded formula
as on `AnalysisResult`. -/
def deviationPercent (value limit : ℚ) : ℚ :=
  if limit = 0 then 0 else (value - limit) / limit * 100

end Violation

/-! ## Limit classification: `src/analyzers/base_analyzer.py` -/

/-- Model of `BaseAnalyzer.determine_result_status` (`base_analyzer.py:120`).  For
thermal analysis a violation is `value > limit` with a warning band above
`limit * 0.9`; for voltage analysis the comparison is between the deviation
of the value from nominal 1.0 pu and the deviation of the chosen limit from
nominal. -/
def determineResultStatus (value limit : ℚ) (analysisType : AnalysisType) : ResultStatus :=
  match analysisType with
  | .thermal =>
    if value > limit then .violation
    else if value > limit * (9/10) then .warning
    else .normal
  | .voltage =>
    if |value - 1| > |limit - 1| then .violation
    else if |value - 1| > |limit - 1| * (9/10) then .warning
    else .normal
  | _ => .normal

/-! ## Thermal limits: `src/analyzers/thermal_analyzer.py` -/

/-- The `thermal_limits` configuration section as read in
`ThermalAnalyzer.__init__` (`thermal_analyzer.py:30`): optional entries for
`default`, `lines`, `transformers` and `cables`. -/
structure ThermalLimitsConfig where
  configDefault : Option ℚ
  configLines : Option ℚ
  configTransformers : Option ℚ
  configCables : Option ℚ

/-- Model of `self.default_limit = thermal_config.get('default', 90.0)`
(`thermal_analyzer.py:32`). -/
def ThermalLimitsConfig.defaultLimit (c : ThermalLimitsConfig) : ℚ :=
  c.configDefault.getD 90

/-- The `self.element_limits` dictionary (`thermal_analyzer.py:33`): a limit
for each of the four thermal kinds, each entry itself defaulting to the
configured default; other kinds have no entry. -/
def ThermalLimitsConfig.elementLimits (c : ThermalLimitsConfig) :
    ElementType → Option ℚ
  | .line => some (c.configLines.getD c.defaultLimit)
  | .transformer2W => some (c.configTransformers.getD c.defaultLimit)
  | .transformer3W => some (c.configTransformers.getD c.defaultLimit)
  | .coupler => some (c.configCables.getD c.defaultLimit)
  | _ => none

/-- Model of `ThermalAnalyzer.get_thermal_limit` (`thermal_analyzer.py:58`):
`self.element_limits.get(element.element_type, self.default_limit)`. -/
def getThermalLimit (c : ThermalLimitsConfig) (t : ElementType) : ℚ :=
  (c.elementLimits t).getD c.defaultLimit

/-! ## Voltage classification: `src/analyzers/voltage_analyzer.py` -/

/-- The values of the `violation_type` metadata entry written by
`VoltageAnalyzer.analyze_element` (`voltage_analyzer.py:104`). -/
inductive VoltageBand where
  | undervoltage
  | overvoltage
  | normalLow
  | normalHigh
deriving DecidableEq, Repr

/-- The limit-selection block of `VoltageAnalyzer.analyze_element`
(`voltage_analyzer.py:104-121`): below the minimum limit the minimum limit is
used with subtype `undervoltage`; above the maximum limit the maximum limit
is used with subtype `overvoltage`; otherwise the strictly nearer of the two
limits is used (the `<` comparison sends ties to the `else` branch, i.e. to
the maximum limit). -/
def voltageLimitUsed (voltagePu minLimit maxLimit : ℚ) : ℚ × VoltageBand :=
  if voltagePu < minLimit then (minLimit, .undervoltage)
  else if voltagePu > maxLimit then (maxLimit, .overvoltage)
  else if |voltagePu - minLimit| < |voltagePu - maxLimit| then (minLimit, .normalLow)
  else (maxLimit, .normalHigh)

/-- The status recorded by `VoltageAnalyzer.analyze_element` via
`create_analysis_result` (`voltage_analyzer.py:142`, `base_analyzer.py:181`):
`determine_result_status` applied to the measured value and the limit chosen
by `voltageLimitUsed`. -/
def voltageAnalyzeStatus (voltagePu minLimit maxLimit : ℚ) : ResultStatus :=
  determineResultStatus voltagePu (voltageLimitUsed voltagePu minLimit maxLimit).1 .voltage

/-! ## Severity: `src/core/results_manager.py` -/

/-- Model of `ResultsManager._calculate_severity` (`results_manager.py:147`), as a
function of the analysis type, the `violation_type` metadata entry, the
measured value and the limit of the analysis result.  The two voltage
branches of the source compute `abs(limit - value)` and `abs(value - limit)`,
which coincide; both are kept to mirror the source. -/
def calculateSeverity (analysisType : AnalysisType) (violationType : Option VoltageBand)
    (value limit : ℚ) : String :=
  match analysisType with
  | .thermal =>
    if (value - limit) / limit * 100 > 20 then "Critical"
    else if (value - limit) / limit * 100 > 10 then "High"
    else if (value - limit) / limit * 100 > 5 then "Medium"
    else "Low"
  | .voltage =>
    if (if violationType = some .undervoltage then |limit - value| else |value - limit|) > 1/20
      then "Critical"
    else if (if violationType = some .undervoltage then |limit - value| else |value - limit|) > 3/100
      then "High"
    else if (if violationType = some .undervoltage then |limit - value| else |value - limit|) > 1/50
      then "Medium"
    else "Low"
  | _ => "Medium"

/-! ## Contingency ranking: `ResultsManager.get_worst_contingencies`
(`results_manager.py:218`) -/

/-- The fields of a violation record that the ranking code reads
(`results_manager.py:233-242`): its severity string and its analysis type. -/
structure ViolationRec where
  severity : String
  analysisType : AnalysisType
deriving DecidableEq, Repr

/-- The per-contingency summary dictionary built at
`results_manager.py:236-243`. -/
structure ContingencySummary where
  contingencyName : String
  totalViolations : ℕ
  criticalViolations : ℕ
  highViolations : ℕ
  thermalViolations : ℕ
  voltageViolations : ℕ
deriving DecidableEq, Repr

/-- Builds one summary entry (`results_manager.py:231-243`). -/
def summarizeContingency (name : String) (violations : List ViolationRec) :
    ContingencySummary where
  contingencyName := name
  totalViolations := violations.length
  criticalViolations := (violations.filter (fun v => v.severity == "Critical")).length
  highViolations := (violations.filter (fun v => v.severity == "High")).length
  thermalViolations := (violations.filter (fun v => v.analysisType == .thermal)).length
  voltageViolations := (violations.filter (fun v => v.analysisType == .voltage)).length

/-- The sort order of `contingency_summary.sort(key=lambda x:
(x['total_violations'], x['critical_violations']), reverse=True)`
(`results_manager.py:247`): `summaryBefore a b` holds when `a` may be placed
before `b`, i.e. when the key of `b` is lexicographically at most the key of
`a`. -/
def summaryBefore (a b : ContingencySummary) : Prop :=
  b.totalViolations < a.totalViolations ∨
    (b.totalViolations = a.totalViolations ∧ b.criticalViolations ≤ a.criticalViolations)

instance : DecidableRel summaryBefore := fun a b => by
  unfold summaryBefore; exact inferInstance

instance : IsTotal ContingencySummary summaryBefore :=
  ⟨fun a b => by unfold summaryBefore; omega⟩

instance : IsTrans ContingencySummary summaryBefore :=
  ⟨fun a b c hab hbc => by unfold summaryBefore at *; omega⟩

/-- Model of `ResultsManager.get_worst_contingencies` (`results_manager.py:218-249`):
contingencies with no violations are skipped, the rest are summarized in
order, stably sorted descending by (total violations, critical violations)
and truncated to `top_n`.  Python's `list.sort(..., reverse=True)` is a
stable descending sort; a stable insertion sort with respect to the total
preorder `summaryBefore` produces the same list. -/
def getWorstContingencies (topN : ℕ)
    (contingencyViolations : List (String × List ViolationRec)) :
    List ContingencySummary :=
  (List.insertionSort summaryBefore
    (contingencyViolations.filterMap fun p =>
      if p.2.isEmpty then none else some (summarizeContingency p.1 p.2))).take topN

/-! ## Scenario restore: `src/core/scenario_manager.py` -/

/-- External behaviour needed by `ScenarioManager.restore_original_values`:
whether `_restore_element_value` can resolve the PowerFactory object for a
snapshot key and write the attribute back (`scenario_manager.py:323-363`). -/
structure ScenarioEnv where
  restoreWriteOk : String → Bool

/-- The mutable state of a `ScenarioManager` (`scenario_manager.py:40-50`)
together with the live PowerFactory values it writes: `liveValues` maps a
snapshot key to the value currently held by the corresponding element
attribute, `originalValues` is the insertion-ordered `_original_values`
dictionary, `activeScenario` is `_active_scenario`. -/
structure ScenarioState where
  liveValues : String → ℚ
  originalValues : List (String × ℚ)
  activeScenario : Option String

/-- Model of `ScenarioManager._restore_element_value` (`scenario_manager.py:323`):
writes one snapshotted value back, reporting success. -/
def restoreElementValue (env : ScenarioEnv) (st : ScenarioState)
    (name : String) (value : ℚ) : Bool × ScenarioState :=
  if env.restoreWriteOk name then
    (true, { st with liveValues := Function.update st.liveValues name value })
  else (false, st)

/-- One iteration of the loop in `restore_original_values`
(`scenario_manager.py:181-183`), threading the success count. -/
def restoreStep (env : ScenarioEnv) (acc : ℕ × ScenarioState)
    (entry : String × ℚ) : ℕ × ScenarioState :=
  let r := restoreElementValue env acc.2 entry.1 entry.2
  (if r.1 then acc.1 + 1 else acc.1, r.2)

/-- Model of `ScenarioManager.restore_original_values` (`scenario_manager.py:170-196`):
writes every snapshotted value back, clears the active-scenario marker, and
reports success exactly when every element restored. -/
def restoreOriginalValues (env : ScenarioEnv) (st : ScenarioState) :
    Bool × ScenarioState :=
  let folded := st.originalValues.foldl (restoreStep env) (0, st)
  (folded.1 == st.originalValues.length, { folded.2 with activeScenario := none })

/-! ## The contingency state machine: `src/core/contingency_manager.py` -/

/-- Model of `ContingencyStatus` enum (`contingency_manager.py:14`). -/
inductive ContingencyStatus where
  | pending
  | active
  | completed
  | failed
  | skipped
deriving DecidableEq, Repr

/-- Model of `ContingencyState` (`contingency_manager.py:23`): per-element bookkeeping.
The `element` field is kept as its name and type; the element's mutable
operational status lives in `CMState.elemStatus`. -/
structure ContingencyState where
  elementName : String
  elementType : ElementType
  originalStatus : Bool
  contingencyStatus : ContingencyStatus
  errorMessage : Option String
deriving DecidableEq, Repr

/-- The value held by `_active_contingency` and passed to
`apply_contingency`.  `ContingencyManager.run_contingency_analysis` calls
`apply_contingency(element)` with a `NetworkElement` even though that
function's signature declares a string name; a dynamically typed value is
therefore either a string or a `NetworkElement`. -/
inductive ApplyKey where
  | byName (name : String)
  | byElement (name : String) (elementType : ElementType)
deriving DecidableEq, Repr

/-- Python `==` between a string (for example a `loc_name` attribute value)
and an `ApplyKey` value: two strings compare by value; a string never equals
a `NetworkElement` (dataclass equality against a non-dataclass returns
`NotImplemented`, falling back to identity, hence `False`). -/
def pyStrEqKey (s : String) (key : ApplyKey) : Bool :=
  match key with
  | .byName t => s == t
  | .byElement _ _ => false

/-- Python truthiness of `_active_contingency` in
`if self._active_contingency and ...` (`contingency_manager.py:97`):
`None` and the empty string are falsy, a `NetworkElement` is truthy. -/
def activeTruthy : Option ApplyKey → Bool
  | none => false
  | some (.byName s) => !s.isEmpty
  | some (.byElement _ _) => true

/-- Python `==` between `_active_contingency` and an element name
(`contingency_manager.py:97,144`). -/
def activeEqName (active : Option ApplyKey) (name : String) : Bool :=
  match active with
  | none => false
  | some key => pyStrEqKey name key

/-- External PowerFactory behaviour driving the contingency manager:
`thermalObjects` is the concatenated `loc_name` list produced by the four
thermal-class `get_calc_relevant_objects` queries
(`contingency_manager.py:344-355`); `outservWrite` tells whether
`set_element_attribute(obj, 'outserv', ...)` succeeds for the object with
that `loc_name`; `elementWrite` tells whether
`NetworkElement.set_out_of_service` succeeds for the element with that name
(its PowerFactory reference is truthy and the attribute write does not
raise); `solveOk` gives the result of the k-th `execute_load_flow` call;
`callback` is the analysis callback, which may raise. -/
inductive CallbackRes where
  | exc
  | ok (results : List ℕ)
deriving DecidableEq, Repr

structure CMEnv where
  thermalObjects : List String
  outservWrite : String → Bool
  elementWrite : String → Bool
  solveOk : ℕ → Bool
  callback : String → CallbackRes

/-- The mutable state read and written by `ContingencyManager`:
`elemStatus` holds each `NetworkElement.operational_status` dataclass field
(keyed by element name), `pfOutserv` the live `outserv` attribute of the
PowerFactory object with that `loc_name`, `tracked` the insertion-ordered
`_contingency_states` dictionary, `activeContingency` the
`_active_contingency` marker, and `solveCalls` counts load-flow calls. -/
structure CMState where
  elemStatus : String → Bool
  pfOutserv : String → Bool
  tracked : List (String × ContingencyState)
  activeContingency : Option ApplyKey
  solveCalls : ℕ

/-- Python dictionary assignment `d[k] = v` on an insertion-ordered
association list: replace in place if the key is present, append otherwise. -/
def dictSet {α : Type} : List (String × α) → String → α → List (String × α)
  | [], k, v => [(k, v)]
  | (k1, v1) :: l, k, v =>
    if k1 = k then (k, v) :: l else (k1, v1) :: dictSet l k v

/-- In-place mutation of the value stored under a key, a no-op when the key
is absent (all mutation sites are guarded by a containment check or by a
successful lookup). -/
def dictModify {α : Type} : List (String × α) → String → (α → α) →
    List (String × α)
  | [], _, _ => []
  | (k1, v1) :: l, k, f =>
    if k1 = k then (k1, f v1) :: dictModify l k f
    else (k1, v1) :: dictModify l k f

/-- Python dictionary lookup `d.get(k)` / `d[k]` on an insertion-ordered
association list. -/
def dictGet {α : Type} : List (String × α) → String → Option α
  | [], _ => none
  | (k1, v1) :: l, k => if k1 = k then some v1 else dictGet l k

/-- Model of `NetworkElement.set_out_of_service` (`network_element.py:87`): when the
element's PowerFactory reference is usable and the attribute write does not
raise, it writes `outserv` and mirrors the negation into the
`operational_status` field, returning success. -/
def setOutOfService (env : CMEnv) (st : CMState) (name : String)
    (status : Bool) : Bool × CMState :=
  if env.elementWrite name then
    (true, { st with
      pfOutserv := Function.update st.pfOutserv name status
      elemStatus := Function.update st.elemStatus name (!status) })
  else (false, st)

/-- The body of `ContingencyManager.apply_contingency_element` after the
mutual-exclusion guard (`contingency_manager.py:101-122`). -/
def applyContingencyElementCore (env : CMEnv) (st : CMState)
    (e : NetworkElement) : Bool × CMState :=
  let r := setOutOfService env st e.name true
  if r.1 then
    (true, { r.2 with
      activeContingency := some (.byName e.name)
      tracked := dictModify r.2.tracked e.name
        fun c => { c with contingencyStatus := .active } })
  else
    (false, { r.2 with
      tracked := dictModify r.2.tracked e.name
        fun c => { c with contingencyStatus := .failed
                          errorMessage := some "Failed to set out of service" } })

/-- Model of `ContingencyManager.apply_contingency_element`
(`contingency_manager.py:85-122`): rejects when a truthy active contingency
marker differs from this element's name, otherwise takes the element out of
service and marks it active. -/
def applyContingencyElement (env : CMEnv) (st : CMState)
    (e : NetworkElement) : Bool × CMState :=
  if activeTruthy st.activeContingency && !activeEqName st.activeContingency e.name then
    (false, st)
  else
    applyContingencyElementCore env st e

/-- Model of `ContingencyManager.restore_contingency` (`contingency_manager.py:124-159`):
looks up the tracked original status, writes it back through
`set_out_of_service`, and on success marks the state completed and clears the
active marker when it names this element. -/
def restoreContingency (env : CMEnv) (st : CMState) (e : NetworkElement) :
    Bool × CMState :=
  match dictGet st.tracked e.name with
  | none => (false, st)
  | some cstate =>
    let r := setOutOfService env st e.name (!cstate.originalStatus)
    if r.1 then
      let st1 := { r.2 with
        tracked := dictModify r.2.tracked e.name
          fun c => { c with contingencyStatus := .completed } }
      if activeEqName st1.activeContingency e.name then
        (true, { st1 with activeContingency := none })
      else
        (true, st1)
    else
      (false, { r.2 with
        tracked := dictModify r.2.tracked e.name
          fun c => { c with contingencyStatus := .failed
                            errorMessage := some "Failed to restore service" } })

/-- One iteration of the loop in `restore_all_contingencies`
(`contingency_manager.py:171-173`), threading the success count. -/
def restoreAllStep (env : CMEnv) (acc : ℕ × CMState)
    (entry : String × ContingencyState) : ℕ × CMState :=
  let r := restoreContingency env acc.2 ⟨entry.2.elementName, entry.2.elementType⟩
  (if r.1 then acc.1 + 1 else acc.1, r.2)

/-- Model of `ContingencyManager.restore_all_contingencies`
(`contingency_manager.py:161-182`): restores every tracked element,
unconditionally clears the active marker, and reports whether every
restoration succeeded. -/
def restoreAllContingencies (env : CMEnv) (st : CMState) : Bool × CMState :=
  let folded := st.tracked.foldl (restoreAllStep env) (0, st)
  (folded.1 == st.tracked.length, { folded.2 with activeContingency := none })

/-- The element search of `ContingencyManager.apply_contingency`
(`contingency_manager.py:344-355`): the first PowerFactory object over the
four thermal classes whose `loc_name` compares equal (by Python `==`) to the
argument. -/
def findTargetElement (env : CMEnv) (key : ApplyKey) : Option String :=
  env.thermalObjects.find? fun locName => pyStrEqKey locName key

/-- Model of `ContingencyManager.apply_contingency` (`contingency_manager.py:332-377`):
finds the element by name, writes `outserv = 1` through the interface, and on
success records the argument as the active contingency.  There is no
mutual-exclusion guard on this path.  The local `original_status` read at
line 362 is dead and not modelled. -/
def applyContingency (env : CMEnv) (st : CMState) (key : ApplyKey) :
    Bool × CMState :=
  match findTargetElement env key with
  | none => (false, st)
  | some objName =>
    if env.outservWrite objName then
      (true, { st with
        pfOutserv := Function.update st.pfOutserv objName true
        activeContingency := some key })
    else (false, st)

/-- One iteration of the preparation loop in
`ContingencyManager.prepare_contingency_list` (`contingency_manager.py:72-80`):
in-service thermal elements are snapshotted into `_contingency_states` and
collected. -/
def prepareStep (acc : List NetworkElement × CMState) (e : NetworkElement) :
    List NetworkElement × CMState :=
  if e.elementType.isThermalElement && acc.2.elemStatus e.name then
    (acc.1 ++ [e], { acc.2 with
      tracked := dictSet acc.2.tracked e.name
        { elementName := e.name
          elementType := e.elementType
          originalStatus := acc.2.elemStatus e.name
          contingencyStatus := .pending
          errorMessage := none } })
  else acc

/-- Model of `ContingencyManager.prepare_contingency_list`
(`contingency_manager.py:60-83`). -/
def prepareContingencyList (st : CMState) (elements : List NetworkElement) :
    List NetworkElement × CMState :=
  elements.foldl prepareStep ([], st)

/-- The truncation `contingency_elements[:max_contingencies]` guarded by
`if max_contingencies:` (`contingency_manager.py:206-207`); a `None` or zero
cap is falsy and leaves the list whole. -/
def truncateCandidates (maxContingencies : Option ℕ)
    (l : List NetworkElement) : List NetworkElement :=
  match maxContingencies with
  | none => l
  | some m => if m = 0 then l else l.take m

/-- The base-case block of `run_contingency_analysis`
(`contingency_manager.py:215-224`): one load-flow call and, on success, the
callback tagged `"base_case"`; a callback exception is caught and logged.
Returns the results contributed to the stream (an empty callback return
contributes nothing, which coincides with extending by the empty list). -/
def runBaseCase (env : CMEnv) (st : CMState) : List ℕ × CMState :=
  let st1 := { st with solveCalls := st.solveCalls + 1 }
  if env.solveOk st.solveCalls then
    match env.callback "base_case" with
    | .exc => ([], st1)
    | .ok rs => (rs, st1)
  else ([], st1)

/-- One iteration of the per-candidate loop of `run_contingency_analysis`
(`contingency_manager.py:227-255`), threading
(state, successful count, failed count, result stream).  The body mirrors the
`try` block: apply (via `apply_contingency`, to which the loop passes the
`NetworkElement` itself), then load flow, then callback tagged with the
element name, then restore; a solver failure restores and counts as failed; a
callback exception falls to the `except` handler, which restores and counts
as failed. -/
def contingencyStep (env : CMEnv) (acc : CMState × ℕ × ℕ × List ℕ)
    (e : NetworkElement) : CMState × ℕ × ℕ × List ℕ :=
  let (st, succN, failN, rs) := acc
  let applied := applyContingency env st (.byElement e.name e.elementType)
  if !applied.1 then (applied.2, succN, failN + 1, rs)
  else
    let st1 := { applied.2 with solveCalls := applied.2.solveCalls + 1 }
    if !env.solveOk applied.2.solveCalls then
      ((restoreContingency env st1 e).2, succN, failN + 1, rs)
    else
      match env.callback e.name with
      | .exc => ((restoreContingency env st1 e).2, succN, failN + 1, rs)
      | .ok newRs => ((restoreContingency env st1 e).2, succN + 1, failN, rs ++ newRs)

/-- The totals dictionary returned by `run_contingency_analysis`
(`contingency_manager.py:261-267`); the per-element state table is available
from the final `CMState`. -/
structure RunTotals where
  totalContingencies : ℕ
  successfulContingencies : ℕ
  failedContingencies : ℕ
  analysisResults : List ℕ
deriving DecidableEq, Repr

/-- Model of `ContingencyManager.run_contingency_analysis`
(`contingency_manager.py:184-274`): prepare, truncate, base case, the
per-candidate loop, then a final `restore_all_contingencies`. -/
def runContingencyAnalysis (env : CMEnv) (st : CMState)
    (elements : List NetworkElement) (maxContingencies : Option ℕ) :
    RunTotals × CMState :=
  let prep := prepareContingencyList st elements
  let cands := truncateCandidates maxContingencies prep.1
  let base := runBaseCase env prep.2
  let looped := cands.foldl (contingencyStep env) (base.2, 0, 0, base.1)
  let finalSt := (restoreAllContingencies env looped.1).2
  ({ totalContingencies := cands.length
     successfulContingencies := looped.2.1
     failedContingencies := looped.2.2.1
     analysisResults := looped.2.2.2 }, finalSt)

end PFNet


namespace PFNet

/-! ## Helper lemmas on the classification functions -/

/-- Characterization of the thermal branch of `determine_result_status`. -/
lemma determineResultStatus_thermal_iff (value limit : ℚ) :
    (determineResultStatus value limit .thermal = .violation ↔ limit < value) ∧
    (determineResultStatus value limit .thermal = .warning ↔
      limit * (9/10) < value ∧ value ≤ limit) ∧
    (determineResultStatus value limit .thermal = .normal ↔
      value ≤ limit * (9/10) ∧ value ≤ limit) := by
  simp only [determineResultStatus]
  split_ifs with h1 h2 <;>
    refine ⟨?_, ?_, ?_⟩ <;> simp_all <;> first | linarith | (intro h; linarith)

/-- Characterization of the voltage branch of `determine_result_status`. -/
lemma determineResultStatus_voltage_iff (value limit : ℚ) :
    (determineResultStatus value limit .voltage = .violation ↔
      |limit - 1| < |value - 1|) ∧
    (determineResultStatus value limit .voltage = .warning ↔
      |value - 1| ≤ |limit - 1| ∧ |limit - 1| * (9/10) < |value - 1|) ∧
    (determineResultStatus value limit .voltage = .normal ↔
      |value - 1| ≤ |limit - 1| * (9/10)) := by
  simp only [determineResultStatus]
  split_ifs with h1 h2 <;>
    refine ⟨?_, ?_, ?_⟩ <;> simp_all <;>
      first
        | linarith [abs_nonneg (limit - 1)]
        | (intro h; linarith [abs_nonneg (limit - 1)])

end PFNet

namespace PFNet

/-! ## Claim C9 -/

/-- Claim C9: the `deviation_percent` computation on `Violation` and
`AnalysisResult` records is total: when the limit is 0 it returns 0.0 instead
of dividing by zero, and for a nonzero limit it returns
`(value − limit) / limit × 100`. -/
theorem deviation_percent_total (value limit : ℚ) :
    (limit = 0 →
      AnalysisResult.deviationPercent value limit = 0 ∧
      Violation.deviationPercent value limit = 0) ∧
    (limit ≠ 0 →
      AnalysisResult.deviationPercent value limit = (value - limit) / limit * 100 ∧
      Violation.deviationPercent value limit = (value - limit) / limit * 100) := by
  constructor <;> intro h <;>
    simp [AnalysisResult.deviationPercent, Violation.deviationPercent, h]

/-- Witness for C9 at limit 0 and at the spec scenario (95 vs limit 90). -/
theorem deviation_percent_total_witness :
    (AnalysisResult.deviationPercent 95 0 = 0 ∧ Violation.deviationPercent 95 0 = 0) ∧
    (AnalysisResult.deviationPercent 95 90 = (95 - 90) / 90 * 100 ∧
     Violation.deviationPercent 95 90 = (95 - 90) / 90 * 100) :=
  ⟨(deviation_percent_total 95 0).1 rfl,
   (deviation_percent_total 95 90).2 (by norm_num)⟩

/-! ## Claim C5 -/

/-- Claim C5: the aggregator's severity function
(`ResultsManager._calculate_severity`): for thermal violations with
percent-over-limit `p = (value − limit)/limit × 100` the severity is
Critical iff `p > 20`, High iff `10 < p ≤ 20`, Medium iff `5 < p ≤ 10`, else
Low (so `p` = 4, 8, 15, 25 give Low, Medium, High, Critical); for voltage
violations with deviation `d = |limit − value|` the severity is Critical iff
`d > 0.05`, High iff `0.03 < d ≤ 0.05`, Medium iff `0.02 < d ≤ 0.03`, else
Low, all comparisons strict, so `d = 0.02` gives Low. -/
theorem calculate_severity_thresholds :
    (∀ value limit : ℚ, limit ≠ 0 →
      (calculateSeverity .thermal none value limit = "Critical" ↔
        20 < (value - limit) / limit * 100) ∧
      (calculateSeverity .thermal none value limit = "High" ↔
        10 < (value - limit) / limit * 100 ∧ (value - limit) / limit * 100 ≤ 20) ∧
      (calculateSeverity .thermal none value limit = "Medium" ↔
        5 < (value - limit) / limit * 100 ∧ (value - limit) / limit * 100 ≤ 10) ∧
      (calculateSeverity .thermal none value limit = "Low" ↔
        (value - limit) / limit * 100 ≤ 5)) ∧
    (∀ (violationType : Option VoltageBand) (value limit : ℚ),
      (calculateSeverity .voltage violationType value limit = "Critical" ↔
        1/20 < |limit - value|) ∧
      (calculateSeverity .voltage violationType value limit = "High" ↔
        3/100 < |limit - value| ∧ |limit - value| ≤ 1/20) ∧
      (calculateSeverity .voltage violationType value limit = "Medium" ↔
        1/50 < |limit - value| ∧ |limit - value| ≤ 3/100) ∧
      (calculateSeverity .voltage violationType value limit = "Low" ↔
        |limit - value| ≤ 1/50)) ∧
    calculateSeverity .thermal none 104 100 = "Low" ∧
    calculateSeverity .thermal none 108 100 = "Medium" ∧
    calculateSeverity .thermal none 115 100 = "High" ∧
    calculateSeverity .thermal none 125 100 = "Critical" ∧
    calculateSeverity .voltage (some .undervoltage) (95/100) (97/100) = "Low" := by
  have hvolt : ∀ (violationType : Option VoltageBand) (value limit : ℚ),
      (calculateSeverity .voltage violationType value limit = "Critical" ↔
        1/20 < |limit - value|) ∧
      (calculateSeverity .voltage violationType value limit = "High" ↔
        3/100 < |limit - value| ∧ |limit - value| ≤ 1/20) ∧
      (calculateSeverity .voltage violationType value limit = "Medium" ↔
        1/50 < |limit - value| ∧ |limit - value| ≤ 3/100) ∧
      (calculateSeverity .voltage violationType value limit = "Low" ↔
        |limit - value| ≤ 1/50) := by
    intro violationType value limit
    have habs : |value - limit| = |limit - value| := abs_sub_comm _ _
    simp only [calculateSeverity, habs, ite_self]
    split_ifs with h1 h2 h3
    · exact ⟨iff_of_true rfl h1,
        iff_of_false (by decide) (fun h => absurd h.2 (not_le.mpr h1)),
        iff_of_false (by decide) (fun h => by rcases h with ⟨ha, hb⟩; linarith),
        iff_of_false (by decide) (fun h => by linarith)⟩
    · exact ⟨iff_of_false (by decide) h1,
        iff_of_true rfl ⟨h2, not_lt.mp h1⟩,
        iff_of_false (by decide) (fun h => absurd h.2 (not_le.mpr h2)),
        iff_of_false (by decide) (fun h => by linarith)⟩
    · exact ⟨iff_of_false (by decide) h1,
        iff_of_false (by decide) (fun h => absurd h.1 h2),
        iff_of_true rfl ⟨h3, not_lt.mp h2⟩,
        iff_of_false (by decide) (fun h => absurd h (not_le.mpr h3))⟩
    · exact ⟨iff_of_false (by decide) h1,
        iff_of_false (by decide) (fun h => absurd h.1 h2),
        iff_of_false (by decide) (fun h => absurd h.1 h3),
        iff_of_true rfl (not_lt.mp h3)⟩
  refine ⟨?_, hvolt, ?_, ?_, ?_, ?_, ?_⟩
  · intro value limit h
    simp only [calculateSeverity]
    split_ifs with h1 h2 h3
    · exact ⟨iff_of_true rfl h1,
        iff_of_false (by decide) (fun h => absurd h.2 (not_le.mpr h1)),
        iff_of_false (by decide) (fun h => by rcases h with ⟨ha, hb⟩; linarith),
        iff_of_false (by decide) (fun h => by linarith)⟩
    · exact ⟨iff_of_false (by decide) h1,
        iff_of_true rfl ⟨h2, not_lt.mp h1⟩,
        iff_of_false (by decide) (fun h => absurd h.2 (not_le.mpr h2)),
        iff_of_false (by decide) (fun h => by linarith)⟩
    · exact ⟨iff_of_false (by decide) h1,
        iff_of_false (by decide) (fun h => absurd h.1 h2),
        iff_of_true rfl ⟨h3, not_lt.mp h2⟩,
        iff_of_false (by decide) (fun h => absurd h (not_le.mpr h3))⟩
    · exact ⟨iff_of_false (by decide) h1,
        iff_of_false (by decide) (fun h => absurd h.1 h2),
        iff_of_false (by decide) (fun h => absurd h.1 h3),
        iff_of_true rfl (not_lt.mp h3)⟩
  · norm_num [calculateSeverity]
  · norm_num [calculateSeverity]
  · norm_num [calculateSeverity]
  · norm_num [calculateSeverity]
  · refine (hvolt (some .undervoltage) (95/100) (97/100)).2.2.2.mpr ?_
    rw [abs_of_nonneg (by norm_num : (0:ℚ) ≤ 97/100 - 95/100)]
    norm_num

/-- Witness for C5: the spec scenario loading 95 against limit 90,
percent-over-limit 5.56, severity Medium. -/
theorem calculate_severity_thresholds_witness :
    calculateSeverity .thermal none 95 90 = "Medium" ↔
      5 < ((95:ℚ) - 90) / 90 * 100 ∧ ((95:ℚ) - 90) / 90 * 100 ≤ 10 :=
  (calculate_severity_thresholds.1 95 90 (by norm_num)).2.2.1

end PFNet

namespace PFNet

/-! ## Claim C6 -/

/-- Claim C6: for every thermal element the applicable limit is selected by
element kind, falling back to the configured default when the kind has no
specific configuration entry (and for kinds outside the thermal table), and
classification of measured value `v` against limit `L` yields violation iff
`v > L`, warning iff `L*0.9 < v ≤ L`, and normal otherwise. -/
theorem thermal_limit_selection_and_status (c : ThermalLimitsConfig)
    (t : ElementType) (value : ℚ) :
    (c.configLines = none → getThermalLimit c .line = c.defaultLimit) ∧
    (∀ x, c.configLines = some x → getThermalLimit c .line = x) ∧
    (c.configTransformers = none →
      getThermalLimit c .transformer2W = c.defaultLimit ∧
      getThermalLimit c .transformer3W = c.defaultLimit) ∧
    (∀ x, c.configTransformers = some x →
      getThermalLimit c .transformer2W = x ∧ getThermalLimit c .transformer3W = x) ∧
    (c.configCables = none → getThermalLimit c .coupler = c.defaultLimit) ∧
    (∀ x, c.configCables = some x → getThermalLimit c .coupler = x) ∧
    (t.isThermalElement = false → getThermalLimit c t = c.defaultLimit) ∧
    (determineResultStatus value (getThermalLimit c t) .thermal = .violation ↔
      getThermalLimit c t < value) ∧
    (determineResultStatus value (getThermalLimit c t) .thermal = .warning ↔
      getThermalLimit c t * (9/10) < value ∧ value ≤ getThermalLimit c t) ∧
    (determineResultStatus value (getThermalLimit c t) .thermal = .normal ↔
      value ≤ getThermalLimit c t * (9/10) ∧ value ≤ getThermalLimit c t) := by
  obtain ⟨hv, hw, hn⟩ := determineResultStatus_thermal_iff value (getThermalLimit c t)
  refine ⟨?_, ?_, ?_, ?_, ?_, ?_, ?_, hv, hw, hn⟩
  · intro h; simp [getThermalLimit, ThermalLimitsConfig.elementLimits, h]
  · intro x h; simp [getThermalLimit, ThermalLimitsConfig.elementLimits, h]
  · intro h
    constructor <;> simp [getThermalLimit, ThermalLimitsConfig.elementLimits, h]
  · intro x h
    constructor <;> simp [getThermalLimit, ThermalLimitsConfig.elementLimits, h]
  · intro h; simp [getThermalLimit, ThermalLimitsConfig.elementLimits, h]
  · intro x h; simp [getThermalLimit, ThermalLimitsConfig.elementLimits, h]
  · intro h
    cases t <;>
      simp_all [ElementType.isThermalElement, getThermalLimit,
        ThermalLimitsConfig.elementLimits]

/-- Witness for C6 at an empty configuration: a line falls back to the
default 90 limit, and loading 95 against it classifies as a violation. -/
theorem thermal_limit_selection_and_status_witness :
    getThermalLimit ⟨none, none, none, none⟩ .line =
      ThermalLimitsConfig.defaultLimit ⟨none, none, none, none⟩ ∧
    (determineResultStatus 95 (getThermalLimit ⟨none, none, none, none⟩ .line)
        .thermal = .violation ↔
      getThermalLimit ⟨none, none, none, none⟩ .line < 95) :=
  ⟨(thermal_limit_selection_and_status ⟨none, none, none, none⟩ .line 95).1 rfl,
   (thermal_limit_selection_and_status
      ⟨none, none, none, none⟩ .line 95).2.2.2.2.2.2.2.1⟩

/-! ## Claim C4 -/

/-- Counterexample for claim C4.  First, with limits (0.96, 1.04) the
measurement 1.00 is equidistant from both limits, yet the code records the
upper limit 1.04 as the applicable limit — not the lower limit, as the claim
("ties broken toward the lower limit") requires.  Second, with limits
(0.97, 1.04) the in-range measurement 1.038 is classified `warning`, not
`normal` as the claim ("otherwise status normal") requires. -/
theorem voltage_nearer_limit_cex :
    (24:ℚ)/25 < 26/25 ∧
    |(1:ℚ) - 24/25| = |(1:ℚ) - 26/25| ∧
    (voltageLimitUsed 1 (24/25) (26/25)).1 = 26/25 ∧
    (26:ℚ)/25 ≠ 24/25 ∧
    (97:ℚ)/100 ≤ 1038/1000 ∧ (1038:ℚ)/1000 ≤ 104/100 ∧
    voltageAnalyzeStatus (1038/1000) (97/100) (104/100) = .warning ∧
    ResultStatus.warning ≠ ResultStatus.normal := by
  refine ⟨by norm_num, ?_, ?_, by norm_num, by norm_num, by norm_num, ?_, by decide⟩
  · rw [abs_of_nonneg (by norm_num : (0:ℚ) ≤ 1 - 24/25),
        abs_of_nonpos (by norm_num : (1:ℚ) - 26/25 ≤ 0)]
    norm_num
  · simp [voltageLimitUsed]
    norm_num
  · have h3 : ¬(|(1038:ℚ)/1000 - 97/100| < |(1038:ℚ)/1000 - 104/100|) := by
      rw [abs_of_nonneg (by norm_num : (0:ℚ) ≤ 1038/1000 - 97/100),
          abs_of_nonpos (by norm_num : (1038:ℚ)/1000 - 104/100 ≤ 0)]
      norm_num
    have e1 : voltageLimitUsed (1038/1000) (97/100) (104/100) =
        (104/100, .normalHigh) := by
      unfold voltageLimitUsed
      rw [if_neg (by norm_num), if_neg (by norm_num), if_neg h3]
    have hv : |(1038:ℚ)/1000 - 1| = 19/500 := by
      rw [abs_of_nonneg (by norm_num)]; norm_num
    have hl : |(104:ℚ)/100 - 1| = 1/25 := by
      rw [abs_of_nonneg (by norm_num)]; norm_num
    unfold voltageAnalyzeStatus
    rw [e1]
    simp only [determineResultStatus]
    rw [hv, hl]
    norm_num

/-- Claim C4 as amended: for configured limits `min < max` and measurement
`v`, the recorded violation subtype is undervoltage iff `v < min` and
overvoltage iff `v > max`; the applicable limit recorded is `min` below the
range, `max` above it, and for in-range values the strictly nearer of the two
limits with ties broken toward the upper limit; the result status is not
determined by the range comparison but by deviation from nominal 1.0 pu
against the recorded limit `L`: violation iff `|v − 1| > |L − 1|`, warning
iff `0.9·|L − 1| < |v − 1| ≤ |L − 1|`, and normal iff
`|v − 1| ≤ 0.9·|L − 1|`. -/
theorem voltage_analyze_element_characterization (vmin vmax v : ℚ)
    (h : vmin < vmax) :
    ((voltageLimitUsed v vmin vmax).2 = .undervoltage ↔ v < vmin) ∧
    ((voltageLimitUsed v vmin vmax).2 = .overvoltage ↔ vmax < v) ∧
    (v < vmin → (voltageLimitUsed v vmin vmax).1 = vmin) ∧
    (vmax < v → (voltageLimitUsed v vmin vmax).1 = vmax) ∧
    (vmin ≤ v → v ≤ vmax →
      (voltageLimitUsed v vmin vmax).1 =
        if |v - vmin| < |v - vmax| then vmin else vmax) ∧
    (voltageAnalyzeStatus v vmin vmax = .violation ↔
      |(voltageLimitUsed v vmin vmax).1 - 1| < |v - 1|) ∧
    (voltageAnalyzeStatus v vmin vmax = .warning ↔
      |v - 1| ≤ |(voltageLimitUsed v vmin vmax).1 - 1| ∧
      |(voltageLimitUsed v vmin vmax).1 - 1| * (9/10) < |v - 1|) ∧
    (voltageAnalyzeStatus v vmin vmax = .normal ↔
      |v - 1| ≤ |(voltageLimitUsed v vmin vmax).1 - 1| * (9/10)) := by
  obtain ⟨s1, s2, s3⟩ :=
    determineResultStatus_voltage_iff v (voltageLimitUsed v vmin vmax).1
  refine ⟨?_, ?_, ?_, ?_, ?_, s1, s2, s3⟩
  · unfold voltageLimitUsed
    split_ifs with h1 h2 h3 <;> simp_all
  · unfold voltageLimitUsed
    split_ifs with h1 h2 h3 <;> simp_all <;> linarith
  · intro h1
    unfold voltageLimitUsed
    rw [if_pos h1]
  · intro h2
    unfold voltageLimitUsed
    rw [if_neg (by linarith), if_pos h2]
  · intro hge hle
    unfold voltageLimitUsed
    rw [if_neg (not_lt.mpr hge), if_neg (not_lt.mpr hle)]
    split_ifs with h4 <;> rfl

/-- Witness for C4's amended theorem at the spec scenario limits
(0.97, 1.04) and measurement 1.00: not an undervoltage, and the recorded
limit is the strictly nearer lower limit 0.97. -/
theorem voltage_analyze_element_characterization_witness :
    ((voltageLimitUsed 1 (97/100) (104/100)).2 = .undervoltage ↔ (1:ℚ) < 97/100) ∧
    ((97:ℚ)/100 ≤ 1 → (1:ℚ) ≤ 104/100 →
      (voltageLimitUsed 1 (97/100) (104/100)).1 =
        if |(1:ℚ) - 97/100| < |(1:ℚ) - 104/100| then 97/100 else 104/100) :=
  ⟨(voltage_analyze_element_characterization (97/100) (104/100) 1 (by norm_num)).1,
   (voltage_analyze_element_characterization
      (97/100) (104/100) 1 (by norm_num)).2.2.2.2.1⟩

end PFNet

namespace PFNet

/-! ## Helper lemmas on the contingency state machine -/

/-- Lookup after a Python-style dictionary assignment. -/
lemma dictGet_dictSet {α : Type} (l : List (String × α)) (k n : String) (v : α) :
    dictGet (dictSet l k v) n = if n = k then some v else dictGet l n := by
  induction l with
  | nil =>
    by_cases h : n = k
    · subst h; simp [dictSet, dictGet]
    · have h2 : ¬k = n := fun hh => h hh.symm
      simp [dictSet, dictGet, h, h2]
  | cons p l ih =>
    obtain ⟨k1, v1⟩ := p
    by_cases hk : k1 = k
    · subst hk
      by_cases hn : n = k1
      · subst hn; simp [dictSet, dictGet]
      · have hn2 : ¬k1 = n := fun hh => hn hh.symm
        simp [dictSet, dictGet, hn, hn2]
    · by_cases hn : k1 = n
      · have hnk : ¬n = k := fun hh => hk (hn.trans hh)
        simp [dictSet, dictGet, hk, hn, hnk]
      · simp [dictSet, dictGet, hk, hn, ih]

/-- Lookup after an in-place value mutation. -/
lemma dictGet_dictModify {α : Type} (l : List (String × α)) (k n : String)
    (f : α → α) :
    dictGet (dictModify l k f) n =
      if n = k then (dictGet l n).map f else dictGet l n := by
  induction l with
  | nil => simp [dictModify, dictGet]
  | cons p l ih =>
    obtain ⟨k1, v1⟩ := p
    by_cases hk : k1 = k
    · subst hk
      by_cases hn : n = k1
      · subst hn; simp [dictModify, dictGet]
      · have hn2 : ¬k1 = n := fun hh => hn hh.symm
        simp [dictModify, dictGet, hn, hn2, ih]
    · by_cases hn : k1 = n
      · have hnk : ¬n = k := fun hh => hk (hn.trans hh)
        simp [dictModify, dictGet, hk, hn, hnk]
      · simp [dictModify, dictGet, hk, hn, ih]

/-- The name search of `apply_contingency` never matches when the function is
handed a `NetworkElement` instead of a string: Python `==` between a
`loc_name` string and a `NetworkElement` is always `False`. -/
lemma findTargetElement_byElement (env : CMEnv) (name : String)
    (etype : ElementType) :
    findTargetElement env (.byElement name etype) = none := by
  unfold findTargetElement
  induction env.thermalObjects with
  | nil => rfl
  | cons s l ih => simpa [List.find?, pyStrEqKey] using ih

/-- Model of the call `self.apply_contingency(element)` at
`contingency_manager.py:232`: applying by a `NetworkElement` value always
fails, leaving the state untouched, because the element search compares
`loc_name` strings against the `NetworkElement` object. -/
lemma applyContingency_byElement (env : CMEnv) (st : CMState) (name : String)
    (etype : ElementType) :
    applyContingency env st (.byElement name etype) = (false, st) := by
  simp [applyContingency, findTargetElement_byElement]

/-- Each per-candidate iteration of `run_contingency_analysis` takes the
failed-to-apply branch and only increments the failure counter. -/
lemma contingencyStep_eq (env : CMEnv) (st : CMState) (succN failN : ℕ)
    (rs : List ℕ) (e : NetworkElement) :
    contingencyStep env (st, succN, failN, rs) e = (st, succN, failN + 1, rs) := by
  simp [contingencyStep, applyContingency_byElement]

/-- The whole candidate loop of `run_contingency_analysis` leaves the state
untouched and counts every candidate as failed. -/
lemma foldl_contingencyStep (env : CMEnv) (cands : List NetworkElement)
    (st : CMState) (succN failN : ℕ) (rs : List ℕ) :
    cands.foldl (contingencyStep env) (st, succN, failN, rs) =
      (st, succN, failN + cands.length, rs) := by
  induction cands generalizing failN with
  | nil => rfl
  | cons e l ih =>
    rw [List.foldl_cons, contingencyStep_eq, ih]
    simp [Nat.add_assoc, Nat.add_comm 1 l.length]

end PFNet

namespace PFNet

/-- Computation of one preparation step never touches the element statuses,
PowerFactory attributes, active marker or solver counter. -/
lemma prepareStep_components (acc : List NetworkElement × CMState)
    (e : NetworkElement) :
    (prepareStep acc e).2.elemStatus = acc.2.elemStatus ∧
    (prepareStep acc e).2.pfOutserv = acc.2.pfOutserv ∧
    (prepareStep acc e).2.activeContingency = acc.2.activeContingency ∧
    (prepareStep acc e).2.solveCalls = acc.2.solveCalls := by
  unfold prepareStep
  split_ifs <;> exact ⟨rfl, rfl, rfl, rfl⟩

/-- The preparation loop never touches the element statuses, PowerFactory
attributes, active marker or solver counter. -/
lemma prepare_foldl_components (es : List NetworkElement)
    (acc : List NetworkElement × CMState) :
    (es.foldl prepareStep acc).2.elemStatus = acc.2.elemStatus ∧
    (es.foldl prepareStep acc).2.pfOutserv = acc.2.pfOutserv ∧
    (es.foldl prepareStep acc).2.activeContingency = acc.2.activeContingency ∧
    (es.foldl prepareStep acc).2.solveCalls = acc.2.solveCalls := by
  induction es generalizing acc with
  | nil => exact ⟨rfl, rfl, rfl, rfl⟩
  | cons a l ih =>
    rw [List.foldl_cons]
    obtain ⟨i1, i2, i3, i4⟩ := ih (prepareStep acc a)
    obtain ⟨s1, s2, s3, s4⟩ := prepareStep_components acc a
    exact ⟨i1.trans s1, i2.trans s2, i3.trans s3, i4.trans s4⟩

/-- Invariant of the preparation loop: every element collected as a
contingency candidate has a tracked `ContingencyState` whose
`original_status` snapshot is that element's current operational status. -/
lemma prepare_foldl_tracked (es : List NetworkElement)
    (acc : List NetworkElement × CMState)
    (hinv : ∀ e ∈ acc.1, ∃ cst, dictGet acc.2.tracked e.name = some cst ∧
      cst.originalStatus = acc.2.elemStatus e.name) :
    ∀ e ∈ (es.foldl prepareStep acc).1,
      ∃ cst, dictGet (es.foldl prepareStep acc).2.tracked e.name = some cst ∧
        cst.originalStatus = (es.foldl prepareStep acc).2.elemStatus e.name := by
  induction es generalizing acc with
  | nil => exact hinv
  | cons a l ih =>
    rw [List.foldl_cons]
    apply ih
    by_cases hc : (a.elementType.isThermalElement && acc.2.elemStatus a.name) = true
    · have hstep : prepareStep acc a =
          (acc.1 ++ [a], { acc.2 with
            tracked := dictSet acc.2.tracked a.name
              { elementName := a.name
                elementType := a.elementType
                originalStatus := acc.2.elemStatus a.name
                contingencyStatus := .pending
                errorMessage := none } }) := by
        unfold prepareStep
        rw [if_pos hc]
      rw [hstep]
      intro e he
      rcases List.mem_append.mp he with hmem | hmem
      · by_cases hname : e.name = a.name
        · refine ⟨ContingencyState.mk a.name a.elementType
              (acc.2.elemStatus a.name) .pending none, ?_, ?_⟩
          · rw [dictGet_dictSet, if_pos hname]
          · rw [hname]
        · obtain ⟨cst, hl, ho⟩ := hinv e hmem
          refine ⟨cst, ?_, ho⟩
          rw [dictGet_dictSet, if_neg hname]
          exact hl
      · have hea : e = a := by simpa using hmem
        subst hea
        refine ⟨ContingencyState.mk e.name e.elementType
            (acc.2.elemStatus e.name) .pending none, ?_, rfl⟩
        rw [dictGet_dictSet, if_pos rfl]
    · have hstep : prepareStep acc a = acc := by
        unfold prepareStep
        rw [if_neg hc]
      rw [hstep]
      exact hinv

/-- Restoration of any element preserves the fact that a tracked element's
snapshot is `b` and its live status is already `b`: a successful restore
rewrites the status to the snapshot, a failed one leaves it alone, and
neither touches snapshots. -/
lemma restoreContingency_preserves (env : CMEnv) (st : CMState)
    (e : NetworkElement) (n : String) (b : Bool)
    (h1 : ∃ cst, dictGet st.tracked n = some cst ∧ cst.originalStatus = b)
    (h2 : st.elemStatus n = b) :
    (∃ cst, dictGet ((restoreContingency env st e).2).tracked n = some cst ∧
      cst.originalStatus = b) ∧
    ((restoreContingency env st e).2).elemStatus n = b := by
  obtain ⟨cst, hcst, horig⟩ := h1
  unfold restoreContingency
  cases hl : dictGet st.tracked e.name with
  | none => exact ⟨⟨cst, hcst, horig⟩, h2⟩
  | some cstate =>
    unfold setOutOfService
    by_cases hw : env.elementWrite e.name = true
    · simp only [hw, if_true, Bool.not_not]
      split_ifs with hact <;>
      · constructor
        · by_cases hn : n = e.name
          · have hceq : cstate = cst := by
              rw [hn, hl] at hcst
              exact Option.some_injective _ hcst
            refine ⟨ContingencyState.mk cstate.elementName cstate.elementType
              cstate.originalStatus .completed cstate.errorMessage, ?_, ?_⟩
            · rw [dictGet_dictModify, if_pos hn, hn, hl]
              rfl
            · show cstate.originalStatus = b
              rw [hceq]; exact horig
          · refine ⟨cst, ?_, horig⟩
            rw [dictGet_dictModify, if_neg hn]
            exact hcst
        · by_cases hn : n = e.name
          · have hceq : cstate = cst := by
              rw [hn, hl] at hcst
              exact Option.some_injective _ hcst
            subst hn
            show Function.update st.elemStatus e.name cstate.originalStatus e.name = b
            rw [Function.update_same, hceq]
            exact horig
          · show Function.update st.elemStatus e.name cstate.originalStatus n = b
            rw [Function.update_noteq hn]
            exact h2
    · simp only [Bool.not_eq_true] at hw
      simp only [hw, Bool.false_eq_true, if_false]
      constructor
      · by_cases hn : n = e.name
        · have hceq : cstate = cst := by
            rw [hn, hl] at hcst
            exact Option.some_injective _ hcst
          refine ⟨ContingencyState.mk cstate.elementName cstate.elementType
            cstate.originalStatus .failed (some "Failed to restore service"), ?_, ?_⟩
          · rw [dictGet_dictModify, if_pos hn, hn, hl]
            rfl
          · show cstate.originalStatus = b
            rw [hceq]; exact horig
        · refine ⟨cst, ?_, horig⟩
          rw [dictGet_dictModify, if_neg hn]
          exact hcst
      · exact h2

end PFNet

namespace PFNet

/-- The restoration loop of `restore_all_contingencies` preserves the
already-at-snapshot property of any tracked element. -/
lemma restoreAll_foldl_preserves (env : CMEnv)
    (entries : List (String × ContingencyState)) (c : ℕ) (s : CMState)
    (n : String) (b : Bool)
    (h1 : ∃ cst, dictGet s.tracked n = some cst ∧ cst.originalStatus = b)
    (h2 : s.elemStatus n = b) :
    (∃ cst, dictGet ((entries.foldl (restoreAllStep env) (c, s)).2).tracked n =
      some cst ∧ cst.originalStatus = b) ∧
    ((entries.foldl (restoreAllStep env) (c, s)).2).elemStatus n = b := by
  induction entries generalizing c s with
  | nil => exact ⟨h1, h2⟩
  | cons p l ih =>
    rw [List.foldl_cons]
    obtain ⟨q1, q2⟩ :=
      restoreContingency_preserves env s ⟨p.2.elementName, p.2.elementType⟩ n b h1 h2
    exact ih _ _ q1 q2

/-- Full restoration preserves the already-at-snapshot property and clears
the active-contingency marker. -/
lemma restoreAll_preserves (env : CMEnv) (s : CMState) (n : String) (b : Bool)
    (h1 : ∃ cst, dictGet s.tracked n = some cst ∧ cst.originalStatus = b)
    (h2 : s.elemStatus n = b) :
    (∃ cst, dictGet ((restoreAllContingencies env s).2).tracked n = some cst ∧
      cst.originalStatus = b) ∧
    ((restoreAllContingencies env s).2).elemStatus n = b := by
  obtain ⟨q1, q2⟩ := restoreAll_foldl_preserves env s.tracked 0 s n b h1 h2
  exact ⟨q1, q2⟩

/-- Computation of the base case changes only the solver-call counter. -/
lemma runBaseCase_components (env : CMEnv) (st : CMState) :
    (runBaseCase env st).2.elemStatus = st.elemStatus ∧
    (runBaseCase env st).2.tracked = st.tracked ∧
    (runBaseCase env st).2.pfOutserv = st.pfOutserv ∧
    (runBaseCase env st).2.activeContingency = st.activeContingency := by
  unfold runBaseCase
  split_ifs <;> cases env.callback "base_case" <;> exact ⟨rfl, rfl, rfl, rfl⟩

/-- The final state of `run_contingency_analysis` is the full restoration of
the state left by the base case, because every per-candidate apply fails. -/
lemma runCA_finalState (env : CMEnv) (st : CMState)
    (elements : List NetworkElement) (maxContingencies : Option ℕ) :
    (runContingencyAnalysis env st elements maxContingencies).2 =
      (restoreAllContingencies env
        (runBaseCase env (prepareContingencyList st elements).2).2).2 := by
  unfold runContingencyAnalysis
  dsimp only
  rw [foldl_contingencyStep]

/-! ## Claim C1 -/

/-- Claim C1: for every element tracked by a contingency sweep, after
`run_contingency_analysis` completes, that element's operational status
equals the original status snapshotted when the sweep began.  (In the code
as written nothing in the candidate loop can perturb an element, because the
loop's `apply_contingency(element)` call always fails its name lookup; the
final `restore_all_contingencies` then rewrites — or, on a failed write,
leaves — each tracked element at its snapshot.) -/
theorem run_contingency_restores_original_status (env : CMEnv) (st : CMState)
    (elements : List NetworkElement) (maxContingencies : Option ℕ) :
    ∀ e ∈ (prepareContingencyList st elements).1,
      ((runContingencyAnalysis env st elements maxContingencies).2).elemStatus
          e.name = st.elemStatus e.name := by
  intro e he
  have hprep := prepare_foldl_tracked elements ([], st)
    (by intro x hx; exact absurd hx (List.not_mem_nil x))
  obtain ⟨cst, hcst, horig⟩ := hprep e he
  obtain ⟨hes, _, _, _⟩ := prepare_foldl_components elements ([], st)
  have hes2 : (prepareContingencyList st elements).2.elemStatus =
      st.elemStatus := hes
  have hcst2 : dictGet (prepareContingencyList st elements).2.tracked e.name =
      some cst := hcst
  have horig2 : cst.originalStatus =
      (prepareContingencyList st elements).2.elemStatus e.name := horig
  obtain ⟨hbs, hbt, _, _⟩ :=
    runBaseCase_components env (prepareContingencyList st elements).2
  rw [runCA_finalState]
  have hq1 : ∃ c1, dictGet
      ((runBaseCase env (prepareContingencyList st elements).2).2).tracked
        e.name = some c1 ∧ c1.originalStatus = st.elemStatus e.name := by
    refine ⟨cst, ?_, ?_⟩
    · rw [hbt]; exact hcst2
    · rw [horig2, hes2]
  have hq2 : ((runBaseCase env
      (prepareContingencyList st elements).2).2).elemStatus e.name =
        st.elemStatus e.name := by
    rw [hbs, hes2]
  exact (restoreAll_preserves env _ e.name (st.elemStatus e.name) hq1 hq2).2

/-- Witness for C1: a one-element sweep in which everything succeeds; the
line "a" is in service before the sweep and in service after it. -/
theorem run_contingency_restores_original_status_witness :
    ((runContingencyAnalysis
      (CMEnv.mk ["a"] (fun _ => true) (fun _ => true) (fun _ => true)
        (fun _ => .ok [7]))
      (CMState.mk (fun _ => true) (fun _ => false) [] none 0)
      [NetworkElement.mk "a" .line] none).2).elemStatus "a" = true := by
  have h := run_contingency_restores_original_status
    (CMEnv.mk ["a"] (fun _ => true) (fun _ => true) (fun _ => true)
      (fun _ => .ok [7]))
    (CMState.mk (fun _ => true) (fun _ => false) [] none 0)
    [NetworkElement.mk "a" .line] none
    (NetworkElement.mk "a" .line) (by decide)
  exact h

end PFNet

namespace PFNet

/-! ## Claim C2 -/

/-- Claim C2 (divergence witness): the per-candidate loop of
`run_contingency_analysis` calls `apply_contingency(element)` with the
`NetworkElement` itself, although that function looks its argument up among
`loc_name` strings; the lookup can therefore never match and every candidate
is counted as failed.  The first conjunct states this for every state and
element; the rest evaluates a sweep over three in-service lines "e1", "e2",
"e3" (with "e2" the only element whose outage write would be refused): the
code returns 0 successful and 3 failed candidates — not 2 successful and
1 failed as the specification's scenario requires — while the base case ran
and all three elements keep their original operational status. -/
theorem run_contingency_apply_type_mismatch :
    (∀ (env : CMEnv) (st : CMState) (name : String) (etype : ElementType),
      applyContingency env st (.byElement name etype) = (false, st)) ∧
    (runContingencyAnalysis
      (CMEnv.mk ["e1", "e2", "e3"] (fun n => !(n == "e2")) (fun _ => true)
        (fun _ => true) (fun _ => .ok [1]))
      (CMState.mk (fun _ => true) (fun _ => false) [] none 0)
      [NetworkElement.mk "e1" .line, NetworkElement.mk "e2" .line,
        NetworkElement.mk "e3" .line] none).1 =
      RunTotals.mk 3 0 3 [1] ∧
    ((runContingencyAnalysis
      (CMEnv.mk ["e1", "e2", "e3"] (fun n => !(n == "e2")) (fun _ => true)
        (fun _ => true) (fun _ => .ok [1]))
      (CMState.mk (fun _ => true) (fun _ => false) [] none 0)
      [NetworkElement.mk "e1" .line, NetworkElement.mk "e2" .line,
        NetworkElement.mk "e3" .line] none).2).elemStatus "e1" = true ∧
    ((runContingencyAnalysis
      (CMEnv.mk ["e1", "e2", "e3"] (fun n => !(n == "e2")) (fun _ => true)
        (fun _ => true) (fun _ => .ok [1]))
      (CMState.mk (fun _ => true) (fun _ => false) [] none 0)
      [NetworkElement.mk "e1" .line, NetworkElement.mk "e2" .line,
        NetworkElement.mk "e3" .line] none).2).elemStatus "e2" = true ∧
    ((runContingencyAnalysis
      (CMEnv.mk ["e1", "e2", "e3"] (fun n => !(n == "e2")) (fun _ => true)
        (fun _ => true) (fun _ => .ok [1]))
      (CMState.mk (fun _ => true) (fun _ => false) [] none 0)
      [NetworkElement.mk "e1" .line, NetworkElement.mk "e2" .line,
        NetworkElement.mk "e3" .line] none).2).elemStatus "e3" = true :=
  ⟨fun env st name etype => applyContingency_byElement env st name etype,
   by decide, by decide, by decide, by decide⟩

/-! ## Claim C3 -/

/-- Counterexample for claim C3: with contingency "A" applied and unrestored
(`_active_contingency = "A"`), applying the different contingency "B" through
`apply_contingency` — the name-based apply path, which carries no
mutual-exclusion guard — returns success, replaces "A" by "B" as the active
contingency, and takes "B" out of service.  The claim requires the second
apply to fail and leave "A" active. -/
theorem apply_contingency_no_guard_cex :
    (applyContingency
      (CMEnv.mk ["A", "B"] (fun _ => true) (fun _ => true) (fun _ => true)
        (fun _ => .ok []))
      (CMState.mk (fun _ => true) (fun n => n == "A")
        [("A", ContingencyState.mk "A" .line true .active none)]
        (some (.byName "A")) 0)
      (.byName "B")).1 = true ∧
    (applyContingency
      (CMEnv.mk ["A", "B"] (fun _ => true) (fun _ => true) (fun _ => true)
        (fun _ => .ok []))
      (CMState.mk (fun _ => true) (fun n => n == "A")
        [("A", ContingencyState.mk "A" .line true .active none)]
        (some (.byName "A")) 0)
      (.byName "B")).2.activeContingency = some (.byName "B") ∧
    some (ApplyKey.byName "B") ≠ some (ApplyKey.byName "A") ∧
    (applyContingency
      (CMEnv.mk ["A", "B"] (fun _ => true) (fun _ => true) (fun _ => true)
        (fun _ => .ok []))
      (CMState.mk (fun _ => true) (fun n => n == "A")
        [("A", ContingencyState.mk "A" .line true .active none)]
        (some (.byName "A")) 0)
      (.byName "B")).2.pfOutserv "B" = true := by
  refine ⟨by decide, by decide, by decide, by decide⟩

/-- Claim C3 as amended: the mutual-exclusion guard lives on the
element-based apply path only.  While a truthy active-contingency marker
names a different element, `apply_contingency_element` returns failure and
leaves the state — in particular the active contingency and every element
status — unchanged.  The name-based `apply_contingency` performs no such
check (see the counterexample). -/
theorem apply_contingency_element_mutual_exclusion (env : CMEnv)
    (st : CMState) (e : NetworkElement) (k : ApplyKey)
    (hk : st.activeContingency = some k)
    (ht : activeTruthy (some k) = true)
    (hne : pyStrEqKey e.name k = false) :
    applyContingencyElement env st e = (false, st) := by
  unfold applyContingencyElement
  rw [hk]
  have hguard : (activeTruthy (some k) && !activeEqName (some k) e.name) = true := by
    rw [ht]
    show (true && !pyStrEqKey e.name k) = true
    rw [hne]
    rfl
  rw [if_pos hguard]

/-- Witness for C3's amended theorem: with "A" active, the element-based
apply of the different line "B" is rejected and changes nothing. -/
theorem apply_contingency_element_mutual_exclusion_witness :
    applyContingencyElement
      (CMEnv.mk ["A", "B"] (fun _ => true) (fun _ => true) (fun _ => true)
        (fun _ => .ok []))
      (CMState.mk (fun _ => true) (fun n => n == "A")
        [("A", ContingencyState.mk "A" .line true .active none)]
        (some (.byName "A")) 0)
      (NetworkElement.mk "B" .line) =
    (false,
      CMState.mk (fun _ => true) (fun n => n == "A")
        [("A", ContingencyState.mk "A" .line true .active none)]
        (some (.byName "A")) 0) :=
  apply_contingency_element_mutual_exclusion _ _ _ (.byName "A") rfl
    (by decide) (by decide)

/-! ## Claim C10 -/

/-- Claim C10: `restore_all_contingencies` unconditionally clears the
active-contingency marker — whatever its return value and however many
restorations failed — so a subsequent element-based apply is never blocked by
the mutual-exclusion guard: on the state it leaves behind,
`apply_contingency_element` always runs its unguarded body. -/
theorem restore_all_clears_active (env : CMEnv) (st : CMState)
    (env2 : CMEnv) (e : NetworkElement) :
    ((restoreAllContingencies env st).2).activeContingency = none ∧
    applyContingencyElement env2 (restoreAllContingencies env st).2 e =
      applyContingencyElementCore env2 (restoreAllContingencies env st).2 e := by
  constructor
  · rfl
  · unfold applyContingencyElement
    have hact : ((restoreAllContingencies env st).2).activeContingency = none := rfl
    rw [hact]
    rfl

end PFNet

namespace PFNet

/-! ## Claim C7 -/

/-- Claim C7: contingency ranking orders contingencies descending by total
violation count with ties broken by critical-violation count.  The first
conjunct makes the sort key explicit; the second states that every ranking
produced by `get_worst_contingencies` is ordered that way (so a contingency
with more violations always ranks worse, regardless of severity mix); the
third evaluates the claim's instance with (total, critical) counts (5,1),
(5,3), (2,0), ranked worst-first as [(5,3), (5,1), (2,0)].  (Reaching this
ranking in the running system requires `Violation` records; see the results
for the constructor defect in `ResultsManager._extract_violations`.) -/
theorem get_worst_contingencies_ranking :
    (∀ a b : ContingencySummary, summaryBefore a b ↔
      (b.totalViolations < a.totalViolations ∨
        (b.totalViolations = a.totalViolations ∧
          b.criticalViolations ≤ a.criticalViolations))) ∧
    (∀ (topN : ℕ) (contingencyViolations : List (String × List ViolationRec)),
      (getWorstContingencies topN contingencyViolations).Pairwise summaryBefore) ∧
    (getWorstContingencies 10
      [("A", [ViolationRec.mk "Critical" .thermal, ViolationRec.mk "Low" .thermal,
        ViolationRec.mk "Low" .thermal, ViolationRec.mk "Low" .thermal,
        ViolationRec.mk "Low" .thermal]),
       ("B", [ViolationRec.mk "Critical" .thermal, ViolationRec.mk "Critical" .thermal,
        ViolationRec.mk "Critical" .thermal, ViolationRec.mk "Low" .thermal,
        ViolationRec.mk "Low" .thermal]),
       ("C", [ViolationRec.mk "Low" .thermal, ViolationRec.mk "Low" .thermal])]).map
        (fun s => (s.contingencyName, s.totalViolations, s.criticalViolations)) =
      [("B", 5, 3), ("A", 5, 1), ("C", 2, 0)] := by
  refine ⟨fun a b => Iff.rfl, ?_, by decide⟩
  intro topN contingencyViolations
  exact List.Pairwise.sublist (List.take_sublist _ _)
    (List.sorted_insertionSort summaryBefore _)

/-! ## Claim C8 -/

/-- Restoration of one snapshot entry changes only the live values. -/
lemma restoreElementValue_components (env : ScenarioEnv) (s : ScenarioState)
    (n : String) (v : ℚ) :
    (restoreElementValue env s n v).2.originalValues = s.originalValues ∧
    (restoreElementValue env s n v).2.activeScenario = s.activeScenario := by
  unfold restoreElementValue
  split_ifs <;> exact ⟨rfl, rfl⟩

/-- The restoration loop changes only the live values. -/
lemma restore_foldl_components (env : ScenarioEnv) (l : List (String × ℚ))
    (c : ℕ) (s : ScenarioState) :
    ((l.foldl (restoreStep env) (c, s)).2).originalValues = s.originalValues ∧
    ((l.foldl (restoreStep env) (c, s)).2).activeScenario = s.activeScenario := by
  induction l generalizing c s with
  | nil => exact ⟨rfl, rfl⟩
  | cons p l ih =>
    rw [List.foldl_cons]
    unfold restoreStep
    obtain ⟨i1, i2⟩ := ih (if (restoreElementValue env s p.1 p.2).1 then c + 1 else c)
      (restoreElementValue env s p.1 p.2).2
    obtain ⟨s1, s2⟩ := restoreElementValue_components env s p.1 p.2
    exact ⟨i1.trans s1, i2.trans s2⟩

/-- Evaluation of one restoration step when the write succeeds. -/
lemma restoreStep_ok (env : ScenarioEnv) (acc : ℕ × ScenarioState)
    (entry : String × ℚ) (hw : env.restoreWriteOk entry.1 = true) :
    restoreStep env acc entry =
      (acc.1 + 1, ScenarioState.mk
        (Function.update acc.2.liveValues entry.1 entry.2)
        acc.2.originalValues acc.2.activeScenario) := by
  simp [restoreStep, restoreElementValue, hw]

/-- Evaluation of one restoration step when the write fails. -/
lemma restoreStep_fail (env : ScenarioEnv) (acc : ℕ × ScenarioState)
    (entry : String × ℚ) (hw : ¬env.restoreWriteOk entry.1 = true) :
    restoreStep env acc entry = acc := by
  simp [restoreStep, restoreElementValue, hw]

/-- Names outside the snapshot keys keep their live value through the
restoration loop. -/
lemma restore_foldl_live_notmem (env : ScenarioEnv) (l : List (String × ℚ))
    (c : ℕ) (s : ScenarioState) (n : String)
    (hn : n ∉ l.map Prod.fst) :
    ((l.foldl (restoreStep env) (c, s)).2).liveValues n = s.liveValues n := by
  induction l generalizing c s with
  | nil => rfl
  | cons p l ih =>
    rw [List.map_cons, List.mem_cons] at hn
    push_neg at hn
    by_cases hw : env.restoreWriteOk p.1 = true
    · rw [List.foldl_cons, restoreStep_ok env _ _ hw]
      rw [ih _ _ hn.2]
      exact Function.update_noteq hn.1 _ _
    · rw [List.foldl_cons, restoreStep_fail env _ _ hw]
      exact ih _ _ hn.2

/-- When every write succeeds, the restoration loop counts every entry. -/
lemma restore_foldl_count (env : ScenarioEnv) (l : List (String × ℚ))
    (c : ℕ) (s : ScenarioState)
    (hok : ∀ p ∈ l, env.restoreWriteOk p.1 = true) :
    (l.foldl (restoreStep env) (c, s)).1 = c + l.length := by
  induction l generalizing c s with
  | nil => rfl
  | cons p l ih =>
    rw [List.foldl_cons, restoreStep_ok env _ _ (hok p (List.mem_cons_self p l))]
    rw [ih _ _ (fun q hq => hok q (List.mem_cons_of_mem p hq))]
    rw [List.length_cons]
    omega

/-- When every write succeeds and keys are unique, the restoration loop
leaves every snapshotted element at its snapshot value. -/
lemma restore_foldl_live_mem (env : ScenarioEnv) (l : List (String × ℚ))
    (c : ℕ) (s : ScenarioState)
    (hok : ∀ p ∈ l, env.restoreWriteOk p.1 = true)
    (hnodup : (l.map Prod.fst).Nodup) :
    ∀ p ∈ l, ((l.foldl (restoreStep env) (c, s)).2).liveValues p.1 = p.2 := by
  induction l generalizing c s with
  | nil => intro p hp; exact absurd hp (List.not_mem_nil p)
  | cons q l ih =>
    rw [List.map_cons, List.nodup_cons] at hnodup
    intro p hp
    rw [List.foldl_cons, restoreStep_ok env _ _ (hok q (List.mem_cons_self q l))]
    rcases List.mem_cons.mp hp with hpq | hmem
    · subst hpq
      rw [restore_foldl_live_notmem env l _ _ p.1 hnodup.1]
      exact Function.update_same _ _ _
    · exact ih _ _ (fun r hr => hok r (List.mem_cons_of_mem q hr)) hnodup.2 p hmem

/-- Running the restoration loop over entries whose live values already equal
the snapshot is observationally a no-op that still counts every entry. -/
lemma restore_foldl_noop (env : ScenarioEnv) (l : List (String × ℚ))
    (c : ℕ) (s : ScenarioState)
    (hok : ∀ p ∈ l, env.restoreWriteOk p.1 = true)
    (heq : ∀ p ∈ l, s.liveValues p.1 = p.2) :
    l.foldl (restoreStep env) (c, s) = (c + l.length, s) := by
  induction l generalizing c with
  | nil => rfl
  | cons p l ih =>
    rw [List.foldl_cons, restoreStep_ok env _ _ (hok p (List.mem_cons_self p l))]
    have hup : Function.update s.liveValues p.1 p.2 = s.liveValues := by
      rw [← heq p (List.mem_cons_self p l)]
      exact Function.update_eq_self _ _
    rw [hup]
    have hself : ScenarioState.mk s.liveValues s.originalValues s.activeScenario = s := rfl
    rw [hself]
    rw [ih _ (fun q hq => hok q (List.mem_cons_of_mem p hq))
      (fun q hq => heq q (List.mem_cons_of_mem p hq))]
    rw [List.length_cons]
    congr 1
    omega

end PFNet

namespace PFNet

/-- Evaluation of a full restore on a state whose live values already sit at
the snapshot and whose active-scenario marker is clear: success, and the
state is returned unchanged. -/
lemma restoreOriginalValues_eval (env : ScenarioEnv) (s : ScenarioState)
    (hok : ∀ p ∈ s.originalValues, env.restoreWriteOk p.1 = true)
    (heq : ∀ p ∈ s.originalValues, s.liveValues p.1 = p.2)
    (hact : s.activeScenario = none) :
    restoreOriginalValues env s = (true, s) := by
  unfold restoreOriginalValues
  dsimp only
  rw [restore_foldl_noop env s.originalValues 0 s hok heq]
  have h2 : ScenarioState.mk s.liveValues s.originalValues none = s := by
    obtain ⟨lv, ov, act⟩ := s
    dsimp only at hact
    rw [hact]
  rw [h2]
  simp

/-- Claim C8: `restore_original_values` is idempotent.  For every snapshot
state in which all element writes succeed, the first call writes every
snapshotted element back to its original value and reports success; the
second call writes each already-restored element back to itself, leaving the
state exactly as the first call left it, and also reports success. -/
theorem restore_original_values_idempotent (env : ScenarioEnv)
    (st : ScenarioState)
    (hok : ∀ p ∈ st.originalValues, env.restoreWriteOk p.1 = true)
    (hnodup : (st.originalValues.map Prod.fst).Nodup) :
    (restoreOriginalValues env st).1 = true ∧
    (∀ p ∈ st.originalValues,
      ((restoreOriginalValues env st).2).liveValues p.1 = p.2) ∧
    restoreOriginalValues env (restoreOriginalValues env st).2 =
      (true, (restoreOriginalValues env st).2) := by
  have hcnt := restore_foldl_count env st.originalValues 0 st hok
  have hfst : (restoreOriginalValues env st).1 = true := by
    unfold restoreOriginalValues
    dsimp only
    rw [hcnt]
    simp
  have hlive : ∀ p ∈ st.originalValues,
      ((restoreOriginalValues env st).2).liveValues p.1 = p.2 := by
    intro p hp
    show ((st.originalValues.foldl (restoreStep env) (0, st)).2).liveValues p.1 = p.2
    exact restore_foldl_live_mem env st.originalValues 0 st hok hnodup p hp
  have horig : ((restoreOriginalValues env st).2).originalValues =
      st.originalValues :=
    (restore_foldl_components env st.originalValues 0 st).1
  refine ⟨hfst, hlive, ?_⟩
  apply restoreOriginalValues_eval
  · rw [horig]
    exact hok
  · rw [horig]
    exact hlive
  · rfl

/-- Witness for C8: one snapshotted generator "g1" at original value 5, all
writes succeeding; both calls succeed and the element sits at 5 afterwards. -/
theorem restore_original_values_idempotent_witness :
    (restoreOriginalValues (ScenarioEnv.mk fun _ => true)
      (ScenarioState.mk (fun _ => 0) [("g1", 5)] (some "s"))).1 = true ∧
    (∀ p ∈ [(("g1" : String), (5 : ℚ))],
      ((restoreOriginalValues (ScenarioEnv.mk fun _ => true)
        (ScenarioState.mk (fun _ => 0) [("g1", 5)] (some "s"))).2).liveValues
          p.1 = p.2) ∧
    restoreOriginalValues (ScenarioEnv.mk fun _ => true)
      (restoreOriginalValues (ScenarioEnv.mk fun _ => true)
        (ScenarioState.mk (fun _ => 0) [("g1", 5)] (some "s"))).2 =
      (true, (restoreOriginalValues (ScenarioEnv.mk fun _ => true)
        (ScenarioState.mk (fun _ => 0) [("g1", 5)] (some "s"))).2) :=
  restore_original_values_idempotent (ScenarioEnv.mk fun _ => true)
    (ScenarioState.mk (fun _ => 0) [("g1", 5)] (some "s"))
    (by intro p hp; rfl) (by simp)

end PFNet
